import Mathlib

set_option maxRecDepth 2000

/-!
A shallow embedding of `src/fetch_github_standards.py` (version 2.0).

The script issues one blocking HTTP GET against a fixed URL, logs the outcome
through the `logging` module and a color-coded console print, and shows the
first 500 characters of the body. We model:

* the network as a fixed function from URL to outcome (a response, or an
  exception raised inside `requests.get`);
* the observable process state (`World`): the `logs/` directory, the records
  appended to `logs/fetch_github_standards.log`, the console lines, and a
  schedule of injected I/O faults for console writes (`print` can raise, e.g.
  on a broken stdout, while the `logging` module swallows handler errors
  internally, so console writes are the only fallible logging step);
* exceptions as the string `str(e)` that is interpolated into messages;
* each Python function as an explicit state-passing Lean function returning
  `World × Except PyExc α`, where `Except.error` means the call raised.

Python strings are sequences of code points, so `String` with character
operations (`String.take`, character count) matches slicing `s[:500]` and
`len(s)` exactly.
-/

/-- A Python exception, abstracted to the text `str(e)` that the script
interpolates into its error message. -/
structure PyExc where
  msg : String
deriving DecidableEq, Repr

/-- A console color produced by colorama (`Fore.GREEN`, `Fore.YELLOW`,
`Fore.RED`, `Fore.WHITE`). -/
inductive Color where
  | green
  | yellow
  | red
  | white
deriving DecidableEq, Repr

/-- One line written to the console: `log_message` (line 30) writes a
color-coded line, the content preview (line 51) is printed plain. -/
inductive ConsoleLine where
  | colored (c : Color) (s : String)
  | plain (s : String)
deriving DecidableEq, Repr

/-- An HTTP response as seen through `requests`: the final status code and
the body decoded as text (`response.text`). -/
structure Response where
  status : Nat
  text : String
deriving DecidableEq, Repr

/-- The network, modelled as a fixed (static-server) function from URL to
outcome: either a response, or an exception raised inside `requests.get`
(connection failure, DNS failure, and so on). -/
def Network : Type := String → Except PyExc Response

/-- The observable state of one process run: whether the `logs/` directory
exists, the records appended to `logs/fetch_github_standards.log` as pairs of
(numeric severity, message) with the Python numeric levels INFO = 20,
WARNING = 30, ERROR = 40, the console lines emitted so far, and the schedule
of injected faults for successive console writes (`none` = the write
succeeds; an empty schedule means all writes succeed). -/
structure World where
  logsDir : Bool
  logFile : List (Nat × String)
  console : List ConsoleLine
  printFaults : List (Option PyExc)
deriving DecidableEq, Repr

/-- `print(...)`: emits one console line, unless the fault schedule injects
an exception for this write, in which case nothing is emitted and the
exception propagates to the caller. -/
def consolePrint (line : ConsoleLine) (w : World) : World × Except PyExc Unit :=
  match w.printFaults with
  | [] => ({ w with console := w.console ++ [line] }, Except.ok ())
  | none :: rest =>
      ({ w with console := w.console ++ [line], printFaults := rest }, Except.ok ())
  | some e :: rest => ({ w with printFaults := rest }, Except.error e)

/-- ASCII lowercasing of one character, as `str.lower()` does on the
level names that occur here. -/
def lowerChar (c : Char) : Char :=
  if 'A' ≤ c ∧ c ≤ 'Z' then Char.ofNat (c.toNat + 32) else c

/-- `level.lower()` (line 31). -/
def pyLower (s : String) : String := ⟨s.data.map lowerChar⟩

/-- The dict lookup `colors.get(level, Fore.WHITE)` over the literal dict
at line 29: INFO is green, WARNING yellow, ERROR red, anything else the
white default. The lookup is case-sensitive. -/
def colorsGet (level : String) : Color :=
  if level = "INFO" then Color.green
  else if level = "WARNING" then Color.yellow
  else if level = "ERROR" then Color.red
  else Color.white

/-- `getattr(logging, name)` for the unary module-level logging helpers:
returns the numeric severity that helper logs at, or `none` when the module
has no such attribute, in which case the `getattr` call raises
`AttributeError`. -/
def loggingAttrLevel (name : String) : Option Nat :=
  if name = "debug" then some 10
  else if name = "info" then some 20
  else if name = "warning" ∨ name = "warn" then some 30
  else if name = "error" ∨ name = "exception" then some 40
  else if name = "critical" ∨ name = "fatal" then some 50
  else none

/-- `log_message` (lines 27-31): print one color-coded console line, then
call `getattr(logging, level.lower())(message)`. Because `basicConfig`
set the root level to INFO (line 22), a record reaches the log file iff its
numeric severity is at least 20. The Python default argument
`level="INFO"` is passed explicitly by the call sites below. -/
def log_message (w : World) (message : String) (level : String) :
    World × Except PyExc Unit :=
  match consolePrint (ConsoleLine.colored (colorsGet level) ("--> " ++ message)) w with
  | (w1, Except.error e) => (w1, Except.error e)
  | (w1, Except.ok _) =>
      match loggingAttrLevel (pyLower level) with
      | none =>
          (w1, Except.error
            ⟨"AttributeError: module logging has no attribute " ++ pyLower level⟩)
      | some sev =>
          (if 20 ≤ sev then { w1 with logFile := w1.logFile ++ [(sev, message)] } else w1,
           Except.ok ())

/-- `response.raise_for_status()` (line 37): raises `HTTPError` iff the
status code is 4xx or 5xx; the message follows the `requests` format
(reason phrase omitted). -/
def raise_for_status (r : Response) (url : String) : Except PyExc Unit :=
  if 400 ≤ r.status ∧ r.status < 500 then
    Except.error ⟨toString r.status ++ " Client Error for url: " ++ url⟩
  else if 500 ≤ r.status ∧ r.status < 600 then
    Except.error ⟨toString r.status ++ " Server Error for url: " ++ url⟩
  else Except.ok ()

/-- The f-string at line 41. -/
def fetchErrorMsg (e : PyExc) : String :=
  "Error fetching standards: " ++ e.msg ++ ". Ensure the URL is correct and public."

/-- `fetch_standards` (lines 33-42): the try block performs the GET, checks
the status, logs success and returns `response.text`; the catch-all except
block turns any exception raised inside the try block into an ERROR log plus
a `None` return. An exception raised by the except block itself (its own
console write failing) propagates. -/
def fetch_standards (net : Network) (url : String) (w : World) :
    World × Except PyExc (Option String) :=
  match (match net url with
         | Except.error e => (w, Except.error e)
         | Except.ok response =>
             match raise_for_status response url with
             | Except.error e => (w, Except.error e)
             | Except.ok _ =>
                 match log_message w "Successfully fetched standards" "INFO" with
                 | (w1, Except.error e) => (w1, Except.error e)
                 | (w1, Except.ok _) => (w1, Except.ok (some response.text)) :
           World × Except PyExc (Option String)) with
  | (w1, Except.ok v) => (w1, Except.ok v)
  | (w1, Except.error e) =>
      match log_message w1 (fetchErrorMsg e) "ERROR" with
      | (w2, Except.error e2) => (w2, Except.error e2)
      | (w2, Except.ok _) => (w2, Except.ok none)

/-- The hard-coded URL at line 47. -/
def the_url : String :=
  "https://raw.githubusercontent.com/Projectbits/code_std/main/Coding%20Standards.md"

/-- The `__main__` block (lines 44-52), entered after a successful module
import: `os.makedirs("logs", exist_ok=True)`, the start log, the fetch, the
conditional preview guarded by the truthiness test `if content:` (line 49,
false for `None` and for the empty string), and the completion log. -/
def mainBody (net : Network) (w : World) : World × Except PyExc Unit :=
  match log_message { w with logsDir := true } "Script started" "INFO" with
  | (w1, Except.error e) => (w1, Except.error e)
  | (w1, Except.ok _) =>
      match fetch_standards net the_url w1 with
      | (w2, Except.error e) => (w2, Except.error e)
      | (w2, Except.ok content) =>
          match (match content with
                 | none => (w2, Except.ok ())
                 | some s =>
                     match s.isEmpty with
                     | true => (w2, Except.ok ())
                     | false =>
                         match log_message w2 "Standards content (first 500 chars):" "INFO" with
                         | (w3, Except.error e) => (w3, Except.error e)
                         | (w3, Except.ok _) =>
                             consolePrint (ConsoleLine.plain (s.take 500)) w3 :
                   World × Except PyExc Unit) with
          | (w4, Except.error e) => (w4, Except.error e)
          | (w4, Except.ok _) => log_message w4 "Script completed" "INFO"

/-- Module import (lines 12-25): `colorama.init`, then
`logging.basicConfig(filename="logs/fetch_github_standards.log", ...)`,
which opens the log file eagerly and raises `FileNotFoundError` when the
`logs/` directory does not exist in the working directory. -/
def importModule (w : World) : World × Except PyExc Unit :=
  match w.logsDir with
  | true => (w, Except.ok ())
  | false =>
      (w, Except.error
        ⟨"FileNotFoundError: [Errno 2] No such file or directory: logs/fetch_github_standards.log"⟩)

/-- One full run of `python fetch_github_standards.py`: module import
followed by the `__main__` block. An unhandled exception makes the
interpreter exit with status 1; normal completion exits with status 0. -/
def runScript (net : Network) (w : World) : World × Nat :=
  match importModule w with
  | (w1, Except.error _) => (w1, 1)
  | (w1, Except.ok _) =>
      match mainBody net w1 with
      | (w2, Except.error _) => (w2, 1)
      | (w2, Except.ok _) => (w2, 0)

/-- The plain (non-log) lines among the console output: exactly the content
previews printed by line 51. -/
def plainLines : List ConsoleLine → List String
  | [] => []
  | ConsoleLine.plain s :: rest => s :: plainLines rest
  | ConsoleLine.colored _ _ :: rest => plainLines rest

/-- A run starting in a working directory where `logs/` already exists,
with nothing logged yet and no injected console faults. -/
def initWorld : World :=
  { logsDir := true, logFile := [], console := [], printFaults := [] }

/-- A run starting in a fresh working directory: no `logs/` directory. -/
def freshWorld : World :=
  { logsDir := false, logFile := [], console := [], printFaults := [] }

/-- A world with earlier output, used to check state-independence. -/
def busyWorld : World :=
  { logsDir := true, logFile := [(20, "old")], console := [ConsoleLine.plain "old"],
    printFaults := [] }

/-- A static server answering 200 with a fixed nonempty body. -/
def netOk : Network := fun _ => Except.ok { status := 200, text := "standards body" }

/-- A static server answering 200 with an empty body. -/
def netEmptyBody : Network := fun _ => Except.ok { status := 200, text := "" }

/-- A network where the GET itself raises (connection refused). -/
def netRefused : Network := fun _ => Except.error ⟨"connection refused"⟩

/-- A static server answering 404. -/
def netNotFound : Network := fun _ => Except.ok { status := 404, text := "Not Found" }

/-- A world whose next console write raises (for example, stdout closed
under the process), while later writes succeed. -/
def faultWorld : World :=
  { logsDir := true, logFile := [], console := [],
    printFaults := [some ⟨"broken pipe"⟩] }

theorem consolePrint_ok (line : ConsoleLine) (w : World) (h : w.printFaults = []) :
    consolePrint line w = ({ w with console := w.console ++ [line] }, Except.ok ()) := by
  unfold consolePrint
  rw [h]

theorem log_message_INFO (w : World) (m : String) (hw : w.printFaults = []) :
    log_message w m "INFO" =
      ({ w with
          console := w.console ++ [ConsoleLine.colored Color.green ("--> " ++ m)],
          logFile := w.logFile ++ [(20, m)] }, Except.ok ()) := by
  unfold log_message consolePrint
  rw [hw]
  rfl

theorem log_message_WARNING (w : World) (m : String) (hw : w.printFaults = []) :
    log_message w m "WARNING" =
      ({ w with
          console := w.console ++ [ConsoleLine.colored Color.yellow ("--> " ++ m)],
          logFile := w.logFile ++ [(30, m)] }, Except.ok ()) := by
  unfold log_message consolePrint
  rw [hw]
  rfl

theorem log_message_ERROR (w : World) (m : String) (hw : w.printFaults = []) :
    log_message w m "ERROR" =
      ({ w with
          console := w.console ++ [ConsoleLine.colored Color.red ("--> " ++ m)],
          logFile := w.logFile ++ [(40, m)] }, Except.ok ()) := by
  unfold log_message consolePrint
  rw [hw]
  rfl

theorem raise_ok_of_2xx (r : Response) (url : String)
    (h2 : 200 ≤ r.status ∧ r.status < 300) :
    raise_for_status r url = Except.ok () := by
  unfold raise_for_status
  rw [if_neg (by omega), if_neg (by omega)]

theorem fetch_ok_eq (net : Network) (url : String) (w : World) (r : Response)
    (hw : w.printFaults = []) (hnet : net url = Except.ok r)
    (hst : raise_for_status r url = Except.ok ()) :
    fetch_standards net url w =
      ({ w with
          console := w.console ++
            [ConsoleLine.colored Color.green "--> Successfully fetched standards"],
          logFile := w.logFile ++ [(20, "Successfully fetched standards")] },
       Except.ok (some r.text)) := by
  unfold fetch_standards
  simp only [hnet, hst, log_message_INFO w "Successfully fetched standards" hw]
  rfl

theorem fetch_neterr_eq (net : Network) (url : String) (w : World) (e : PyExc)
    (hw : w.printFaults = []) (hnet : net url = Except.error e) :
    fetch_standards net url w =
      ({ w with
          console := w.console ++ [ConsoleLine.colored Color.red ("--> " ++ fetchErrorMsg e)],
          logFile := w.logFile ++ [(40, fetchErrorMsg e)] },
       Except.ok none) := by
  unfold fetch_standards
  simp only [hnet, log_message_ERROR w (fetchErrorMsg e) hw]

theorem fetch_httperr_eq (net : Network) (url : String) (w : World) (r : Response) (e : PyExc)
    (hw : w.printFaults = []) (hnet : net url = Except.ok r)
    (hst : raise_for_status r url = Except.error e) :
    fetch_standards net url w =
      ({ w with
          console := w.console ++ [ConsoleLine.colored Color.red ("--> " ++ fetchErrorMsg e)],
          logFile := w.logFile ++ [(40, fetchErrorMsg e)] },
       Except.ok none) := by
  unfold fetch_standards
  simp only [hnet, hst, log_message_ERROR w (fetchErrorMsg e) hw]

theorem fetch_successlog_fault_eq (net : Network) (url : String) (w : World) (r : Response)
    (e : PyExc) (hnet : net url = Except.ok r) (hst : raise_for_status r url = Except.ok ())
    (hw : w.printFaults = [some e]) :
    fetch_standards net url w =
      ({ w with
          printFaults := [],
          console := w.console ++ [ConsoleLine.colored Color.red ("--> " ++ fetchErrorMsg e)],
          logFile := w.logFile ++ [(40, fetchErrorMsg e)] },
       Except.ok none) := by
  unfold fetch_standards log_message consolePrint
  simp only [hnet, hst, hw]
  rfl

theorem importModule_ok (w : World) (hd : w.logsDir = true) :
    importModule w = (w, Except.ok ()) := by
  unfold importModule
  rw [hd]

theorem log_message_INFOc (a : Bool) (lf : List (Nat × String)) (cs : List ConsoleLine)
    (m : String) :
    log_message ⟨a, lf, cs, []⟩ m "INFO" =
      (⟨a, lf ++ [(20, m)], cs ++ [ConsoleLine.colored Color.green ("--> " ++ m)], []⟩,
       Except.ok ()) := rfl

theorem consolePrint_nilc (line : ConsoleLine) (a : Bool) (lf : List (Nat × String))
    (cs : List ConsoleLine) :
    consolePrint line ⟨a, lf, cs, []⟩ = (⟨a, lf, cs ++ [line], []⟩, Except.ok ()) := rfl

theorem fetch_ok_eqc (net : Network) (url : String) (r : Response)
    (hnet : net url = Except.ok r) (hst : raise_for_status r url = Except.ok ())
    (a : Bool) (lf : List (Nat × String)) (cs : List ConsoleLine) :
    fetch_standards net url ⟨a, lf, cs, []⟩ =
      (⟨a, lf ++ [(20, "Successfully fetched standards")],
        cs ++ [ConsoleLine.colored Color.green "--> Successfully fetched standards"], []⟩,
       Except.ok (some r.text)) := by
  unfold fetch_standards
  simp only [hnet, hst]
  rfl

theorem fetch_neterr_eqc (net : Network) (url : String) (e : PyExc)
    (hnet : net url = Except.error e)
    (a : Bool) (lf : List (Nat × String)) (cs : List ConsoleLine) :
    fetch_standards net url ⟨a, lf, cs, []⟩ =
      (⟨a, lf ++ [(40, fetchErrorMsg e)],
        cs ++ [ConsoleLine.colored Color.red ("--> " ++ fetchErrorMsg e)], []⟩,
       Except.ok none) := by
  unfold fetch_standards
  simp only [hnet]
  rfl

theorem fetch_httperr_eqc (net : Network) (url : String) (r : Response) (e : PyExc)
    (hnet : net url = Except.ok r) (hst : raise_for_status r url = Except.error e)
    (a : Bool) (lf : List (Nat × String)) (cs : List ConsoleLine) :
    fetch_standards net url ⟨a, lf, cs, []⟩ =
      (⟨a, lf ++ [(40, fetchErrorMsg e)],
        cs ++ [ConsoleLine.colored Color.red ("--> " ++ fetchErrorMsg e)], []⟩,
       Except.ok none) := by
  unfold fetch_standards
  simp only [hnet, hst]
  rfl

theorem runScript_ok_nonempty (net : Network) (w : World) (r : Response)
    (hw : w.printFaults = []) (hd : w.logsDir = true)
    (hnet : net the_url = Except.ok r)
    (hst : raise_for_status r the_url = Except.ok ())
    (hne : r.text.isEmpty = false) :
    runScript net w =
      ({ w with
          logsDir := true,
          console := w.console ++
            [ConsoleLine.colored Color.green "--> Script started",
             ConsoleLine.colored Color.green "--> Successfully fetched standards",
             ConsoleLine.colored Color.green "--> Standards content (first 500 chars):",
             ConsoleLine.plain (r.text.take 500),
             ConsoleLine.colored Color.green "--> Script completed"],
          logFile := w.logFile ++
            [(20, "Script started"), (20, "Successfully fetched standards"),
             (20, "Standards content (first 500 chars):"), (20, "Script completed")] },
       0) := by
  simp only [runScript, mainBody, importModule_ok w hd, hw, hne,
    log_message_INFOc, fetch_ok_eqc net the_url r hnet hst, consolePrint_nilc,
    List.append_assoc, List.cons_append, List.nil_append, List.singleton_append]
  rfl

theorem runScript_ok_empty (net : Network) (w : World) (r : Response)
    (hw : w.printFaults = []) (hd : w.logsDir = true)
    (hnet : net the_url = Except.ok r)
    (hst : raise_for_status r the_url = Except.ok ())
    (hemp : r.text.isEmpty = true) :
    runScript net w =
      ({ w with
          logsDir := true,
          console := w.console ++
            [ConsoleLine.colored Color.green "--> Script started",
             ConsoleLine.colored Color.green "--> Successfully fetched standards",
             ConsoleLine.colored Color.green "--> Script completed"],
          logFile := w.logFile ++
            [(20, "Script started"), (20, "Successfully fetched standards"),
             (20, "Script completed")] },
       0) := by
  simp only [runScript, mainBody, importModule_ok w hd, hw, hemp,
    log_message_INFOc, fetch_ok_eqc net the_url r hnet hst,
    List.append_assoc, List.cons_append, List.nil_append, List.singleton_append]
  rfl

theorem runScript_fetchfail (net : Network) (w : World) (e : PyExc)
    (hw : w.printFaults = []) (hd : w.logsDir = true)
    (hexc : net the_url = Except.error e ∨
            ∃ r, net the_url = Except.ok r ∧ raise_for_status r the_url = Except.error e) :
    runScript net w =
      ({ w with
          logsDir := true,
          console := w.console ++
            [ConsoleLine.colored Color.green "--> Script started",
             ConsoleLine.colored Color.red ("--> " ++ fetchErrorMsg e),
             ConsoleLine.colored Color.green "--> Script completed"],
          logFile := w.logFile ++
            [(20, "Script started"), (40, fetchErrorMsg e), (20, "Script completed")] },
       0) := by
  rcases hexc with hnet | ⟨r, hnet, hst⟩
  · simp only [runScript, mainBody, importModule_ok w hd, hw,
      log_message_INFOc, fetch_neterr_eqc net the_url e hnet,
      List.append_assoc, List.cons_append, List.nil_append, List.singleton_append]
    rfl
  · simp only [runScript, mainBody, importModule_ok w hd, hw,
      log_message_INFOc, fetch_httperr_eqc net the_url r e hnet hst,
      List.append_assoc, List.cons_append, List.nil_append, List.singleton_append]
    rfl

theorem runScript_exit0_aux (net : Network) (w : World)
    (hw : w.printFaults = []) (hd : w.logsDir = true) :
    (runScript net w).2 = 0 ∧ (runScript net w).1.logsDir = true ∧
      (runScript net w).1.printFaults = [] := by
  rcases hnet : net the_url with e | r
  · rw [runScript_fetchfail net w e hw hd (Or.inl hnet)]
    exact ⟨rfl, rfl, hw⟩
  · rcases hst : raise_for_status r the_url with e | u
    · rw [runScript_fetchfail net w e hw hd (Or.inr ⟨r, hnet, hst⟩)]
      exact ⟨rfl, rfl, hw⟩
    · cases u
      cases hemp : r.text.isEmpty
      · rw [runScript_ok_nonempty net w r hw hd hnet hst hemp]
        exact ⟨rfl, rfl, hw⟩
      · rw [runScript_ok_empty net w r hw hd hnet hst hemp]
        exact ⟨rfl, rfl, hw⟩

/-- C1: for every URL on which the GET completes with a 2xx status and body
decoded as `r.text` (and a writable console), `fetch_standards` returns the
full body and appends exactly one INFO-level record, "Successfully fetched
standards", to the log, plus the matching console line. -/
theorem C1_fetch_success_returns_body (net : Network) (url : String) (w : World)
    (r : Response) (hw : w.printFaults = []) (hnet : net url = Except.ok r)
    (h2 : 200 ≤ r.status ∧ r.status < 300) :
    fetch_standards net url w =
      ({ w with
          console := w.console ++
            [ConsoleLine.colored Color.green "--> Successfully fetched standards"],
          logFile := w.logFile ++ [(20, "Successfully fetched standards")] },
       Except.ok (some r.text)) :=
  fetch_ok_eq net url w r hw hnet (raise_ok_of_2xx r url h2)

theorem C1_witness :
    fetch_standards netOk "u" initWorld =
      ({ initWorld with
          console := initWorld.console ++
            [ConsoleLine.colored Color.green "--> Successfully fetched standards"],
          logFile := initWorld.logFile ++ [(20, "Successfully fetched standards")] },
       Except.ok (some "standards body")) :=
  C1_fetch_success_returns_body netOk "u" initWorld { status := 200, text := "standards body" }
    rfl rfl (by decide)

/-- C2: every exception raised during the request — the GET itself raising
(connection or DNS failure) or a non-2xx status surfaced as a raised
`HTTPError` — is caught: `fetch_standards` returns `none` and appends exactly
one ERROR-level record whose message embeds `str(e)` and the fixed hint
"Ensure the URL is correct and public."; the call itself does not raise. -/
theorem C2_fetch_failure_absorbed (net : Network) (url : String) (w : World) (e : PyExc)
    (hw : w.printFaults = [])
    (hexc : net url = Except.error e ∨
            ∃ r, net url = Except.ok r ∧ raise_for_status r url = Except.error e) :
    fetch_standards net url w =
      ({ w with
          console := w.console ++
            [ConsoleLine.colored Color.red ("--> " ++ fetchErrorMsg e)],
          logFile := w.logFile ++ [(40, fetchErrorMsg e)] },
       Except.ok none) := by
  rcases hexc with hnet | ⟨r, hnet, hst⟩
  · exact fetch_neterr_eq net url w e hw hnet
  · exact fetch_httperr_eq net url w r e hw hnet hst

theorem C2_witness :
    fetch_standards netRefused "u" initWorld =
      ({ initWorld with
          console := initWorld.console ++
            [ConsoleLine.colored Color.red ("--> " ++ fetchErrorMsg ⟨"connection refused"⟩)],
          logFile := initWorld.logFile ++ [(40, fetchErrorMsg ⟨"connection refused"⟩)] },
       Except.ok none) :=
  C2_fetch_failure_absorbed netRefused "u" initWorld ⟨"connection refused"⟩ rfl (Or.inl rfl)

/-- C3 counterexample: against a static server answering 200 with the empty
body, `fetch_standards` returns a result (`some ""`, which is not the absence
value `none`), yet the orchestration neither logs the informational
"Standards content" message nor prints anything: line 49 tests Python
truthiness, so the print step is also skipped for an empty payload, not only
when the absence value was returned. -/
theorem C3_counterexample_empty_body :
    (fetch_standards netEmptyBody the_url initWorld).2 = Except.ok (some "") ∧
    (runScript netEmptyBody initWorld).1.console =
      [ConsoleLine.colored Color.green "--> Script started",
       ConsoleLine.colored Color.green "--> Successfully fetched standards",
       ConsoleLine.colored Color.green "--> Script completed"] :=
  ⟨rfl, rfl⟩

/-- C3 amended: for every run in which fetch returns a nonempty string
payload, the orchestration logs an informational message and then prints the
first 500 characters of the result; the print step (and the informational
message) is skipped both when the absence value and when an empty string was
returned — the absence case covering each way fetch yields `None`: the GET
itself raising, and a 4xx/5xx status raised by `raise_for_status`. -/
theorem C3_print_iff_nonempty_result (net : Network) (w : World)
    (hw : w.printFaults = []) (hd : w.logsDir = true) :
    (∀ r, net the_url = Except.ok r → raise_for_status r the_url = Except.ok () →
      r.text.isEmpty = false →
      (runScript net w).1.console = w.console ++
        [ConsoleLine.colored Color.green "--> Script started",
         ConsoleLine.colored Color.green "--> Successfully fetched standards",
         ConsoleLine.colored Color.green "--> Standards content (first 500 chars):",
         ConsoleLine.plain (r.text.take 500),
         ConsoleLine.colored Color.green "--> Script completed"]) ∧
    (∀ r, net the_url = Except.ok r → raise_for_status r the_url = Except.ok () →
      r.text.isEmpty = true →
      (runScript net w).1.console = w.console ++
        [ConsoleLine.colored Color.green "--> Script started",
         ConsoleLine.colored Color.green "--> Successfully fetched standards",
         ConsoleLine.colored Color.green "--> Script completed"]) ∧
    (∀ e, (net the_url = Except.error e ∨
        ∃ r, net the_url = Except.ok r ∧ raise_for_status r the_url = Except.error e) →
      (runScript net w).1.console = w.console ++
        [ConsoleLine.colored Color.green "--> Script started",
         ConsoleLine.colored Color.red ("--> " ++ fetchErrorMsg e),
         ConsoleLine.colored Color.green "--> Script completed"]) := by
  refine ⟨?_, ?_, ?_⟩
  · intro r hnet hst hne
    rw [runScript_ok_nonempty net w r hw hd hnet hst hne]
  · intro r hnet hst hemp
    rw [runScript_ok_empty net w r hw hd hnet hst hemp]
  · intro e hexc
    rw [runScript_fetchfail net w e hw hd hexc]

theorem C3_witness :
    (runScript netOk initWorld).1.console = initWorld.console ++
      [ConsoleLine.colored Color.green "--> Script started",
       ConsoleLine.colored Color.green "--> Successfully fetched standards",
       ConsoleLine.colored Color.green "--> Standards content (first 500 chars):",
       ConsoleLine.plain (("standards body" : String).take 500),
       ConsoleLine.colored Color.green "--> Script completed"] :=
  (C3_print_iff_nonempty_result netOk initWorld rfl rfl).1
    { status := 200, text := "standards body" } rfl rfl (by decide)

/-- C4 counterexample: for the unrecognized severity string "FOO",
`log_message` prints the console line in the default white color, but
`getattr(logging, "foo")` then raises `AttributeError`: the call fails, so
`log_message` is not total over arbitrary severity strings. -/
theorem C4_counterexample_unrecognized_level_raises :
    log_message initWorld "hello" "FOO" =
      ({ initWorld with console := [ConsoleLine.colored Color.white "--> hello"] },
       Except.error ⟨"AttributeError: module logging has no attribute foo"⟩) :=
  rfl

/-- C4 amended: for the recognized severities INFO, WARNING and ERROR (and a
writable console), `log_message` never fails: it appends exactly one record
to the log destination at the corresponding numeric severity (20, 30, 40)
and exactly one console line, color-coded with three pairwise distinct
colors (green, yellow, red). A severity string outside the recognized
attribute names of the `logging` module makes the call raise
(`C4_counterexample_unrecognized_level_raises`) after printing the console
line in the neutral white default. -/
theorem C4_recognized_levels_total (w : World) (m : String) (hw : w.printFaults = []) :
    log_message w m "INFO" =
      ({ w with
          console := w.console ++ [ConsoleLine.colored Color.green ("--> " ++ m)],
          logFile := w.logFile ++ [(20, m)] }, Except.ok ()) ∧
    log_message w m "WARNING" =
      ({ w with
          console := w.console ++ [ConsoleLine.colored Color.yellow ("--> " ++ m)],
          logFile := w.logFile ++ [(30, m)] }, Except.ok ()) ∧
    log_message w m "ERROR" =
      ({ w with
          console := w.console ++ [ConsoleLine.colored Color.red ("--> " ++ m)],
          logFile := w.logFile ++ [(40, m)] }, Except.ok ()) :=
  ⟨log_message_INFO w m hw, log_message_WARNING w m hw, log_message_ERROR w m hw⟩

theorem C4_witness :
    log_message initWorld "x" "WARNING" =
      ({ initWorld with
          console := initWorld.console ++
            [ConsoleLine.colored Color.yellow ("--> " ++ "x")],
          logFile := initWorld.logFile ++ [(30, "x")] }, Except.ok ()) :=
  (C4_recognized_levels_total initWorld "x" rfl).2.1

theorem plainLines_append (xs ys : List ConsoleLine) :
    plainLines (xs ++ ys) = plainLines xs ++ plainLines ys := by
  induction xs with
  | nil => rfl
  | cons x xs ih => cases x <;> simp [plainLines, ih]

/-- C5 counterexample: a successful fetch can have a body of length L = 0,
and there the claimed preview — the first min(0, 500) = 0 characters, that
is one empty preview line — is not printed: no preview line is emitted at
all, because line 49 tests truthiness rather than presence. -/
theorem C5_counterexample_empty_body_preview :
    plainLines ((runScript netEmptyBody initWorld).1.console) ≠
      [("" : String).take 500] := by
  decide

/-- C5 amended: truncation law for nonempty bodies: for every successful
fetch whose body is nonempty, the console preview printed is exactly
`r.text.take 500` — its character list is the first min(500, L) characters
of the body, unescaped and unreformatted; for an empty body no preview line
is printed (`C5_counterexample_empty_body_preview`). -/
theorem C5_truncation_law (net : Network) (w : World) (r : Response)
    (hw : w.printFaults = []) (hd : w.logsDir = true)
    (hnet : net the_url = Except.ok r) (hst : raise_for_status r the_url = Except.ok ())
    (hne : r.text.isEmpty = false) :
    plainLines ((runScript net w).1.console) =
      plainLines w.console ++ [r.text.take 500] ∧
    (r.text.take 500).data = r.text.data.take 500 ∧
    (r.text.take 500).length = min 500 r.text.length := by
  refine ⟨?_, String.data_take r.text 500, ?_⟩
  · rw [runScript_ok_nonempty net w r hw hd hnet hst hne]
    simp [plainLines_append, plainLines]
  · rw [String.length, String.data_take, List.length_take]
    rfl

theorem C5_witness :
    plainLines ((runScript netOk initWorld).1.console) =
      plainLines initWorld.console ++ [("standards body" : String).take 500] ∧
    (("standards body" : String).take 500).data =
      ("standards body" : String).data.take 500 ∧
    (("standards body" : String).take 500).length =
      min 500 ("standards body" : String).length :=
  C5_truncation_law netOk initWorld { status := 200, text := "standards body" }
    rfl rfl rfl rfl (by decide)

/-- C6: every run that reaches normal completion exits with status 0
regardless of the network behavior — success, connection failure and HTTP
error status alike; failure shows up only in the log file and console lines,
never in the exit status. The hypotheses rule out the two unhandled startup
faults the spec places out of scope: a missing log directory and an
unwritable console. -/
theorem C6_exit_status_zero (net : Network) (w : World)
    (hw : w.printFaults = []) (hd : w.logsDir = true) :
    (runScript net w).2 = 0 :=
  (runScript_exit0_aux net w hw hd).1

theorem C6_witness :
    (runScript netRefused initWorld).2 = 0 ∧ (runScript netNotFound initWorld).2 = 0 :=
  ⟨C6_exit_status_zero netRefused initWorld rfl rfl,
   C6_exit_status_zero netNotFound initWorld rfl rfl⟩

/-- C7: directory-creation idempotence: `os.makedirs("logs", exist_ok=True)`
is the first statement of the `__main__` block and does not fail when the
directory already exists, so a run from a state with the directory present
exits 0, leaves the directory present, and a second run from the resulting
state again exits 0: running the program twice never fails because the log
directory already exists. -/
theorem C7_second_run_succeeds (net : Network) (w : World)
    (hw : w.printFaults = []) (hd : w.logsDir = true) :
    (runScript net w).2 = 0 ∧ (runScript net w).1.logsDir = true ∧
      (runScript net (runScript net w).1).2 = 0 := by
  obtain ⟨h0, hdir, hpf⟩ := runScript_exit0_aux net w hw hd
  exact ⟨h0, hdir, (runScript_exit0_aux net (runScript net w).1 hpf hdir).1⟩

theorem C7_witness :
    (runScript netOk initWorld).2 = 0 ∧ (runScript netOk initWorld).1.logsDir = true ∧
      (runScript netOk (runScript netOk initWorld).1).2 = 0 :=
  C7_second_run_succeeds netOk initWorld rfl rfl

/-- C8: idempotence against a static server: the network is a fixed function
from URL to response, and the value `fetch_standards` returns depends only
on that function and the URL, not on the state the call starts from — so two
calls on the same URL (in particular, one run after the other) return equal
results. -/
theorem C8_fetch_idempotent (net : Network) (url : String) (w w2 : World)
    (hw : w.printFaults = []) (hw2 : w2.printFaults = []) :
    (fetch_standards net url w).2 = (fetch_standards net url w2).2 := by
  rcases hnet : net url with e | r
  · rw [fetch_neterr_eq net url w e hw hnet, fetch_neterr_eq net url w2 e hw2 hnet]
  · rcases hst : raise_for_status r url with e | u
    · rw [fetch_httperr_eq net url w r e hw hnet hst,
        fetch_httperr_eq net url w2 r e hw2 hnet hst]
    · cases u
      rw [fetch_ok_eq net url w r hw hnet hst, fetch_ok_eq net url w2 r hw2 hnet hst]

theorem C8_witness :
    (fetch_standards netOk "u" initWorld).2 =
      (fetch_standards netOk "u" (fetch_standards netOk "u" initWorld).1).2 :=
  C8_fetch_idempotent netOk "u" initWorld (fetch_standards netOk "u" initWorld).1 rfl rfl

/-- C9: `logging.basicConfig` at lines 20-25 opens
`logs/fetch_github_standards.log` at module import time, before the
directory-creation step inside the `__main__` block can run; from a working
directory without `logs/`, the run terminates with the unhandled startup
error (exit status 1) and the state is returned untouched: nothing was
logged, nothing was printed, and the result does not depend on the network,
so no fetch was attempted. -/
theorem C9_import_fails_without_logs_dir (net : Network) (w : World)
    (hd : w.logsDir = false) :
    runScript net w = (w, 1) := by
  unfold runScript importModule
  rw [hd]

theorem C9_witness : runScript netOk freshWorld = (freshWorld, 1) :=
  C9_import_fails_without_logs_dir netOk freshWorld rfl

/-- C10: the catch-all of `fetch_standards` encloses the success-path
logging, not only the request: if, after a 2xx response, logging the success
record raises (here: its console write fails), the handler still runs — the
function returns the absence value `none` and appends one ERROR record
embedding the raised exception and the hint, even though the HTTP request
itself succeeded. -/
theorem C10_success_log_failure_caught (net : Network) (url : String) (w : World)
    (r : Response) (e : PyExc) (hnet : net url = Except.ok r)
    (h2 : 200 ≤ r.status ∧ r.status < 300)
    (hw : w.printFaults = [some e]) :
    fetch_standards net url w =
      ({ w with
          printFaults := [],
          console := w.console ++
            [ConsoleLine.colored Color.red ("--> " ++ fetchErrorMsg e)],
          logFile := w.logFile ++ [(40, fetchErrorMsg e)] },
       Except.ok none) :=
  fetch_successlog_fault_eq net url w r e hnet (raise_ok_of_2xx r url h2) hw

theorem C10_witness :
    fetch_standards netOk "u" faultWorld =
      ({ faultWorld with
          printFaults := [],
          console := faultWorld.console ++
            [ConsoleLine.colored Color.red ("--> " ++ fetchErrorMsg ⟨"broken pipe"⟩)],
          logFile := faultWorld.logFile ++ [(40, fetchErrorMsg ⟨"broken pipe"⟩)] },
       Except.ok none) :=
  C10_success_log_failure_caught netOk "u" faultWorld
    { status := 200, text := "standards body" } ⟨"broken pipe"⟩ rfl (by decide) rfl
